import Mathlib

/-
Verification of the Classroom-Security-Monitor repository.

Shallow embedding of the Python sources:
  ai_service.py    : the three external-capability calls and the per-frame
                     face-processing routine
  app.py           : the analyze_frame endpoint and the _capture_loop thread
  alarm_system.py  : the AlarmSystem trigger, loop-timeout check and log cap

External effects (HTTP, the json library, cv2, the clock) enter as explicit
oracle arguments; machine floats are modelled as rationals.
-/

namespace ClassroomMonitor

/-! Embedding of ai_service.py -/

/-- Index of the first occurrence of a character in a list, as Python
str.find restricted to the found or not-found cases. -/
def findIdxChar (c : Char) : List Char → Option Nat
  | [] => none
  | x :: xs => if x = c then some 0 else (findIdxChar c xs).map (fun i => i + 1)

/-- Index of the last occurrence of a character, as Python str.rfind. -/
def rfindIdxChar (c : Char) (l : List Char) : Option Nat :=
  match findIdxChar c l.reverse with
  | some i => some (l.length - 1 - i)
  | none => none

/-- The substring-extraction step shared by all three capability calls:
start_idx = content.find of the opening brace (-1 when absent),
end_idx = content.rfind of the closing brace + 1, and the slice
content[start_idx:end_idx] is extracted when start_idx is nonnegative and
end_idx exceeds it; otherwise no substring is produced. -/
def extractBraced (content : List Char) : Option (List Char) :=
  let startIdx : Int := match findIdxChar '\x7b' content with
    | some i => (i : Int)
    | none => -1
  let endIdx : Int := (match rfindIdxChar '\x7d' content with
    | some i => (i : Int)
    | none => -1) + 1
  if 0 ≤ startIdx ∧ startIdx < endIdx then
    some ((content.drop startIdx.toNat).take (endIdx - startIdx).toNat)
  else none

/-- Normalized bounding box of a detected face, fields as produced by the
bbox dictionary of the detection response (absent keys already defaulted
to 0 as by dict.get). -/
structure BBox where
  x : ℚ
  y : ℚ
  width : ℚ
  height : ℚ
deriving DecidableEq

/-- One face candidate of the detection response (absent keys defaulted as
by dict.get). -/
structure FaceCand where
  bbox : BBox
  confidence : ℚ
deriving DecidableEq

/-- A parsed JSON object from a capability response, restricted to the two
keys the code reads: the faces list of a detection response and the
similarity_score of a comparison response; a missing key is none, matching
dict.get with a default. -/
structure JVal where
  faces : Option (List FaceCand)
  similarity_score : Option ℚ
deriving DecidableEq

/-- Outcome of one HTTP round trip: netFail covers a raised exception
(timeout, connection error), resp carries the status code and the textual
message content of a completed response. -/
inductive NetResult where
  | netFail
  | resp (status : Nat) (content : List Char)
deriving DecidableEq

/-- Return value of extract_face_features on success: either the parsed
JSON object, or the fallback dictionary built from the raw content when
json.loads raises (feature_vector = content, key_features = [],
face_hash = hash of content). -/
inductive ExtractResult where
  | parsed (j : JVal)
  | fallback (content : List Char)
deriving DecidableEq

/-- AIService.detect_faces_in_image: loads is the json.loads oracle.
A network exception returns the empty list; a non-success status returns
the empty list; a success status extracts the braced substring, returning
faces (default empty) on a parse success, the empty list on a parse
failure, and falling off the function (Python None) when no braced
substring exists. -/
def detect_faces_in_image (loads : List Char → Option JVal) (r : NetResult) :
    Option (List FaceCand) :=
  match r with
  | .netFail => some []
  | .resp status content =>
    if status = 200 then
      match extractBraced content with
      | some js =>
        match loads js with
        | some j => some (j.faces.getD [])
        | none => some []
      | none => none
    else some []

/-- AIService.extract_face_features: a network exception returns None; a
non-success status returns None; a success status extracts the braced
substring, returning the parsed object on success, the fallback
dictionary on a json.loads failure, and None when no braced substring
exists. -/
def extract_face_features (loads : List Char → Option JVal) (r : NetResult) :
    Option ExtractResult :=
  match r with
  | .netFail => none
  | .resp status content =>
    if status = 200 then
      match extractBraced content with
      | some js =>
        match loads js with
        | some j => some (.parsed j)
        | none => some (.fallback content)
      | none => none
    else none

/-- AIService.compare_faces: the two booleans are the Python truthiness of
the two feature arguments; falsy input returns similarity 0.0, a network
exception returns 0.0, a non-success status returns 0.0, a parse failure
of the braced substring returns 0.0, a parse success returns
similarity_score (default 0.0), and no braced substring falls off the
function (Python None). -/
def compare_faces (loads : List Char → Option JVal) (f1Truthy f2Truthy : Bool)
    (r : NetResult) : Option ℚ :=
  if f1Truthy = false ∨ f2Truthy = false then some 0
  else match r with
  | .netFail => some 0
  | .resp status content =>
    if status = 200 then
      match extractBraced content with
      | some js =>
        match loads js with
        | some j => some (j.similarity_score.getD 0)
        | none => some 0
      | none => none
    else some 0

/-- Python int() applied to a rational: truncation toward zero, which on
a reduced fraction is the truncating integer division of numerator by
denominator. -/
def pyInt (q : ℚ) : Int :=
  Int.tdiv q.num (q.den : Int)

/-- Resolution of a numpy slice endpoint on an axis of the given length:
negative indices count from the end, then the result is clipped to the
axis. -/
def npIdx (i : Int) (len : Nat) : Nat :=
  let j := if i < 0 then i + len else i
  (max 0 (min j (len : Int))).toNat

/-- Number of elements selected by the numpy slice [a:b] on an axis of the
given length. -/
def sliceLen (a b : Int) (len : Nat) : Nat :=
  npIdx b len - npIdx a len

/-- Shape of the crop frame[y:y+h, x:x+w] for a bounding box on a frame of
the given height and width, after denormalizing the fractional box with
int() truncation. -/
def cropDims (h w : Nat) (b : BBox) : Nat × Nat :=
  let x := pyInt (b.x * (w : ℚ))
  let y := pyInt (b.y * (h : ℚ))
  let ww := pyInt (b.width * (w : ℚ))
  let hh := pyInt (b.height * (h : ℚ))
  (sliceLen y (y + hh) h, sliceLen x (x + ww) w)

/-- One entry of the list built by process_frame_for_faces, over an
abstract descriptor type D for the extracted features; the face_region
array is represented by its shape. -/
structure ProcessedFace (D : Type) where
  bbox : BBox
  confidence : ℚ
  features : Option D
  regionRows : Nat
  regionCols : Nat
deriving DecidableEq

/-- AIService.process_frame_for_faces on a frame of the given height and
width: for each detected candidate the bounding box is denormalized and
the crop taken; a candidate whose crop has nonzero size is kept together
with the result of the feature-extraction capability (an oracle from the
candidate, since the crop is a function of the candidate and the frame),
and a candidate whose crop is empty is dropped. -/
def process_frame_for_faces {D : Type} (h w : Nat)
    (extractOracle : FaceCand → Option D) (faces : List FaceCand) :
    List (ProcessedFace D) :=
  faces.filterMap (fun face =>
    let dims := cropDims h w face.bbox
    if 0 < dims.1 * dims.2 then
      some { bbox := face.bbox, confidence := face.confidence,
             features := extractOracle face,
             regionRows := dims.1, regionCols := dims.2 }
    else none)

/-! Embedding of alarm_system.py -/

/-- One record of the persisted alarm log, as built by _log_alarm. -/
structure AlarmLogEntry where
  timestamp : Nat
  alert_type : String
  message : String
  severity : String
  status : String
deriving DecidableEq

/-- AlarmSystem._log_alarm on the current stored sequence: append the new
entry, then keep only the last 1000 entries (the Python slice
logs[-1000:]), and write the result back. -/
def log_alarm (logs : List AlarmLogEntry) (e : AlarmLogEntry) :
    List AlarmLogEntry :=
  let l := logs ++ [e]
  l.drop (l.length - 1000)

/-- The data of a running alarm: the arguments passed to the alarm thread
and its start time. -/
structure ActiveAlarm where
  alert_type : String
  message : String
  severity : String
  started_at : Nat
deriving DecidableEq

/-- State of the AlarmSystem instance: the is_active flag, the data of the
running alarm thread when one exists, the persisted log, and a count of
notification loops started so far (bookkeeping for the thread starts). -/
structure AlarmState where
  is_active : Bool
  current : Option ActiveAlarm
  logs : List AlarmLogEntry
  loops_started : Nat
deriving DecidableEq

/-- AlarmSystem.trigger_alarm: when is_active is false, set it, start the
alarm loop thread with the given arguments and the current time, and log
the activation; when is_active is already true, do nothing at all. -/
def trigger_alarm (s : AlarmState) (now : Nat) (t m sev : String) :
    AlarmState :=
  if s.is_active then s
  else
    { is_active := true,
      current := some { alert_type := t, message := m, severity := sev,
                        started_at := now },
      logs := log_alarm s.logs
        { timestamp := now, alert_type := t, message := m, severity := sev,
          status := "activated" },
      loops_started := s.loops_started + 1 }

/-- AlarmSystem._get_alarm_duration: dictionary lookup with default 30. -/
def get_alarm_duration (severity : String) : Nat :=
  if severity = "high" then 60
  else if severity = "medium" then 30
  else if severity = "low" then 15
  else 30

/-- One evaluation of the while condition of AlarmSystem._alarm_loop at
the given clock reading: when is_active holds and the elapsed time is
still below the severity duration the loop runs another iteration (the
state is unchanged and the flag true is returned); otherwise the loop
exits and the auto-stop assignment sets is_active to false. -/
def alarm_loop_check (s : AlarmState) (start now : ℚ) (severity : String) :
    AlarmState × Bool :=
  if s.is_active = true ∧ now - start < (get_alarm_duration severity : ℚ) then
    (s, true)
  else ({ s with is_active := false }, false)

/-! Embedding of the _capture_loop of app.py -/

/-- Outcome of one camera.read() call: success with a frame of nonzero
size, failure (ret false, a None frame, or an empty frame), or error (the
call raised an exception, handled by the except branch of the loop). -/
inductive ReadResult (F : Type) where
  | success (frame : F)
  | failure
  | error
deriving DecidableEq

/-- State of the capture loop and the shared latest-frame cell: the
consecutive-failure counter, the raw and base64-encoded halves of the
cell, and whether the loop has terminated. -/
structure CaptureState (F : Type) where
  consecutive_failures : Nat
  latest_frame : Option F
  latest_frame_b64 : Option String
  stopped : Bool
deriving DecidableEq

/-- One iteration of _capture_loop on one read outcome, with enc the
jpeg-then-base64 encoding: a successful read resets the failure counter
and publishes the frame and its encoding into the shared cell; a failed
read increments the counter and, once it exceeds 30, breaks out of the
loop; an exception is printed and the loop continues unchanged. A stopped
loop performs no further reads. -/
def capture_step {F : Type} (enc : F → String) (s : CaptureState F)
    (r : ReadResult F) : CaptureState F :=
  if s.stopped then s
  else match r with
  | .success f =>
    { consecutive_failures := 0, latest_frame := some f,
      latest_frame_b64 := some (enc f), stopped := false }
  | .failure =>
    let n := s.consecutive_failures + 1
    if 30 < n then { s with consecutive_failures := n, stopped := true }
    else { s with consecutive_failures := n }
  | .error => s

/-- The capture loop run over a sequence of read outcomes. -/
def capture_run {F : Type} (enc : F → String) (s : CaptureState F)
    (reads : List (ReadResult F)) : CaptureState F :=
  reads.foldl (capture_step enc) s

/-! Embedding of the analyze_frame endpoint of app.py -/

/-- The fields of a Student row read by analyze_frame: the primary key,
the display name, the active flag, and the stored face_encoding text
column (none for NULL). -/
structure Student where
  id : Nat
  name : String
  is_active : Bool
  face_encoding : Option String
deriving DecidableEq

/-- The body of the matching loop of analyze_frame for one student, over
an abstract descriptor type D: a student whose face_encoding is NULL or
empty (Python falsy) is passed over without any comparison; otherwise the
stored encoding is parsed (parseEnc is the json.loads oracle for stored
encodings) and compared with the detected features (compareOracle is the
comparison capability), and the student replaces the running best exactly
when the similarity strictly exceeds both the running best score and
0.75. -/
def matchStep {D : Type} (compareOracle : D → D → ℚ) (parseEnc : String → D)
    (feat : D) (acc : Option Student × ℚ) (st : Student) :
    Option Student × ℚ :=
  match st.face_encoding with
  | none => acc
  | some enc =>
    if enc.isEmpty then acc
    else
      let sim := compareOracle feat (parseEnc enc)
      if acc.2 < sim ∧ (3 : ℚ)/4 < sim then (some st, sim) else acc

/-- The full matching loop of analyze_frame for one detected face: the
active students are scanned in iteration order starting from no match and
best score 0.0. -/
def bestMatch {D : Type} (compareOracle : D → D → ℚ) (parseEnc : String → D)
    (feat : D) (students : List Student) : Option Student × ℚ :=
  (students.filter (fun st => st.is_active)).foldl
    (matchStep compareOracle parseEnc feat) (none, 0)

/-- The similarity the comparison capability returns for one student, or
none when the student is passed over for a falsy stored encoding. -/
def simOf {D : Type} (compareOracle : D → D → ℚ) (parseEnc : String → D)
    (feat : D) (st : Student) : Option ℚ :=
  match st.face_encoding with
  | none => none
  | some enc =>
    if enc.isEmpty then none else some (compareOracle feat (parseEnc enc))

/-- The similarities actually returned by the comparison capability for
one detected face: one per active student whose stored encoding is
truthy, in iteration order. -/
def comparedSims {D : Type} (compareOracle : D → D → ℚ) (parseEnc : String → D)
    (feat : D) (students : List Student) : List ℚ :=
  (students.filter (fun st => st.is_active)).filterMap
    (simOf compareOracle parseEnc feat)

/-- The maximum similarity returned by the comparison capability across
the active students, 0 when none is returned. -/
def maxSimilarity {D : Type} (compareOracle : D → D → ℚ) (parseEnc : String → D)
    (feat : D) (students : List Student) : ℚ :=
  (comparedSims compareOracle parseEnc feat students).foldl max 0

/-- One per-face record of the JSON response of analyze_frame; a none
confidence models the absence of the confidence key in the emitted
dictionary. -/
structure FaceResult where
  recognized : Bool
  name : String
  confidence : Option ℚ
deriving DecidableEq

/-- The EntryLog row inserted by analyze_frame for one detected face. -/
structure EntryLogRow where
  student_id : Option Nat
  is_recognized : Bool
  confidence_score : Option ℚ
  entry_time : Nat
deriving DecidableEq

/-- The SystemAlert row inserted by analyze_frame for an unmatched
face. -/
structure AlertRow where
  alert_type : String
  message : String
  severity : String
deriving DecidableEq

/-- One call of trigger_security_alarm made by analyze_frame. -/
structure AlarmTrig where
  alert_type : String
  message : String
  severity : String
deriving DecidableEq

/-- The message built by analyze_frame for an unknown person, with the
formatted timestamp abstracted to the numeric time. -/
def unknownMsg (now : Nat) : String :=
  "Unknown person detected at " ++ toString now

/-- Everything analyze_frame produces for one detected face: the per-face
response record, the EntryLog row, and the alert row and alarm trigger of
the unmatched branch when they occur. -/
structure FaceOutcome where
  result : FaceResult
  log : EntryLogRow
  alert : Option AlertRow
  alarm : Option AlarmTrig
deriving DecidableEq

/-- The tail of the per-face loop body of analyze_frame, after the
matching loop has produced the matched student and best score: the
EntryLog row is always inserted (confidence_score only when the best
score is positive); a match produces a recognized record carrying the
name and confidence; a non-match produces the record for Unknown without
a confidence key, a high-severity unknown_person alert row, and an alarm
trigger with the same arguments. -/
def faceOutcome (now : Nat) (mb : Option Student × ℚ) : FaceOutcome :=
  match mb.1 with
  | some st =>
    { result := { recognized := true, name := st.name,
                  confidence := some mb.2 },
      log := { student_id := some st.id, is_recognized := true,
               confidence_score := if 0 < mb.2 then some mb.2 else none,
               entry_time := now },
      alert := none, alarm := none }
  | none =>
    { result := { recognized := false, name := "Unknown", confidence := none },
      log := { student_id := none, is_recognized := false,
               confidence_score := if 0 < mb.2 then some mb.2 else none,
               entry_time := now },
      alert := some { alert_type := "unknown_person",
                      message := unknownMsg now, severity := "high" },
      alarm := some { alert_type := "unknown_person",
                      message := unknownMsg now, severity := "high" } }

/-- The complete per-face loop body of analyze_frame: a face whose
features are falsy never enters the matching loop and keeps the initial
no-match state with best score 0.0. -/
def processFace {D : Type} (compareOracle : D → D → ℚ) (parseEnc : String → D)
    (students : List Student) (now : Nat) (fd : ProcessedFace D) :
    FaceOutcome :=
  faceOutcome now
    (match fd.features with
     | some feat => bestMatch compareOracle parseEnc feat students
     | none => ((none : Option Student), (0 : ℚ)))

/-- The JSON response of analyze_frame. -/
inductive AnalyzeResp where
  | skipped
  | failed (message : String)
  | success (faces_detected : Nat) (results : List FaceResult)
deriving DecidableEq

/-- The database and alarm side effects of one analyze_frame call. -/
structure Effects where
  entry_logs : List EntryLogRow
  alerts : List AlertRow
  alarm_trigs : List AlarmTrig
deriving DecidableEq

/-- No side effects at all. -/
def emptyEffects : Effects :=
  { entry_logs := [], alerts := [], alarm_trigs := [] }

/-- The analyze_frame endpoint of app.py. Arguments model its inputs:
the monitoring_active flag; the frame field of the request body (none
when the body or the field is missing); the decoded frame of cv2.imdecode
as its height and width (none when decoding fails or the result is
empty); the faces returned by the detection capability; the
feature-extraction oracle; the active-student query result; the stored
encoding parser and comparison oracles; and the request time. The
monitoring check precedes everything else; then the frame field is
required, the frame must decode, and each face kept by
process_frame_for_faces is processed by the per-face loop body, the
response reporting the count of processed faces and one record per
face. -/
def analyze_frame {D : Type} (monitoring : Bool) (frameField : Option String)
    (decoded : Option (Nat × Nat)) (faces : List FaceCand)
    (extractOracle : FaceCand → Option D) (students : List Student)
    (parseEnc : String → D) (compareOracle : D → D → ℚ) (now : Nat) :
    AnalyzeResp × Effects :=
  if monitoring = false then (.skipped, emptyEffects)
  else
    match frameField with
    | none => (.failed "No frame data received", emptyEffects)
    | some _ =>
      match decoded with
      | none => (.failed "Could not decode frame", emptyEffects)
      | some hw =>
        let detected := process_frame_for_faces hw.1 hw.2 extractOracle faces
        let outs := detected.map (processFace compareOracle parseEnc students now)
        (.success detected.length (outs.map (fun o => o.result)),
         { entry_logs := outs.map (fun o => o.log),
           alerts := outs.filterMap (fun o => o.alert),
           alarm_trigs := outs.filterMap (fun o => o.alarm) })

/-! Theorems for the claims -/

/-- C4: calling trigger while the alarm is already Active is a complete
no-op: the state, hence the running alarm data (severity, alert type,
message, start time), the persisted log, and the count of started
notification loops, is returned unchanged, so the running alarm keeps its
timer and no second alarm can become active. -/
theorem claim_C4 (s : AlarmState) (now : Nat) (t m sev : String)
    (h : s.is_active = true) :
    trigger_alarm s now t m sev = s := by
  simp [trigger_alarm, h]

/-- Witness for C4 at a concrete active state. -/
theorem claim_C4_witness :
    trigger_alarm
      { is_active := true,
        current := some { alert_type := "unknown_person", message := "m",
                          severity := "high", started_at := 5 },
        logs := [], loops_started := 1 } 9 "x" "y" "low"
      = { is_active := true,
          current := some { alert_type := "unknown_person", message := "m",
                            severity := "high", started_at := 5 },
          logs := [], loops_started := 1 } :=
  claim_C4 _ 9 "x" "y" "low" rfl

/-- C5: absent an explicit stop, the alarm loop exit check turns an
Active alarm Idle exactly when the elapsed time since its start reaches
the severity duration, and the durations are 60 seconds for high, 30 for
medium, 15 for low, and 30 for any other severity. -/
theorem claim_C5 (s : AlarmState) (start now : ℚ) (sev : String)
    (h : s.is_active = true) :
    ((alarm_loop_check s start now sev).1.is_active = false ↔
      (get_alarm_duration sev : ℚ) ≤ now - start)
    ∧ get_alarm_duration "high" = 60
    ∧ get_alarm_duration "medium" = 30
    ∧ get_alarm_duration "low" = 15
    ∧ (∀ x : String, x ≠ "high" → x ≠ "medium" → x ≠ "low" →
        get_alarm_duration x = 30) := by
  refine ⟨?_, rfl, rfl, rfl, ?_⟩
  · by_cases hc : now - start < (get_alarm_duration sev : ℚ)
    · simp [alarm_loop_check, h, hc]
    · simp [alarm_loop_check, h, hc, le_of_not_lt hc]
  · intro x h1 h2 h3
    simp [get_alarm_duration, h1, h2, h3]

/-- Witness for C5 at a concrete active state at the exact timeout
instant, and at a nonstandard severity. -/
theorem claim_C5_witness :
    ((alarm_loop_check
        { is_active := true, current := none, logs := [], loops_started := 0 }
        0 60 "high").1.is_active = false ↔
      (get_alarm_duration "high" : ℚ) ≤ 60 - 0)
    ∧ get_alarm_duration "weird" = 30 := by
  have h := claim_C5
    { is_active := true, current := none, logs := [], loops_started := 0 }
    0 60 "high" rfl
  exact ⟨h.1, h.2.2.2.2 "weird" (by decide) (by decide) (by decide)⟩

/-- C6: with monitoring disabled, analyze_frame returns the skipped
status and empty side effects, for every possible value of every other
input, so no decode result, capability result, student, or clock reading
influences the outcome and no entry-log row, alert, or alarm trigger is
produced. -/
theorem claim_C6 {D : Type} (frameField : Option String)
    (decoded : Option (Nat × Nat)) (faces : List FaceCand)
    (extractOracle : FaceCand → Option D) (students : List Student)
    (parseEnc : String → D) (compareOracle : D → D → ℚ) (now : Nat) :
    analyze_frame false frameField decoded faces extractOracle students
      parseEnc compareOracle now = (.skipped, emptyEffects) := by
  simp [analyze_frame]

/-- C9: the alarm-log append keeps at most 1000 entries, acts as a plain
append while under the cap, and in general keeps a suffix of the appended
sequence (the most recent entries in order, the oldest dropped first). -/
theorem claim_C9 (logs : List AlarmLogEntry) (e : AlarmLogEntry) :
    (log_alarm logs e).length ≤ 1000
    ∧ (logs.length < 1000 → log_alarm logs e = logs ++ [e])
    ∧ List.take ((logs.length + 1) - 1000) (logs ++ [e]) ++ log_alarm logs e
        = logs ++ [e] := by
  refine ⟨?_, ?_, ?_⟩
  · simp [log_alarm]
    omega
  · intro h
    have h0 : (logs ++ [e]).length - 1000 = 0 := by simp; omega
    simp only [log_alarm]
    rw [h0, List.drop_zero]
  · have hlen : (logs ++ [e]).length = logs.length + 1 := by simp
    simp only [log_alarm, hlen]
    exact List.take_append_drop _ _

/-- Witness for C9 on a concrete log under the cap. -/
theorem claim_C9_witness :
    (log_alarm []
        { timestamp := 1, alert_type := "unknown_person", message := "m",
          severity := "high", status := "activated" }).length ≤ 1000
    ∧ log_alarm []
        { timestamp := 1, alert_type := "unknown_person", message := "m",
          severity := "high", status := "activated" }
      = [{ timestamp := 1, alert_type := "unknown_person", message := "m",
           severity := "high", status := "activated" }] := by
  have h := claim_C9 []
    { timestamp := 1, alert_type := "unknown_person", message := "m",
      severity := "high", status := "activated" }
  exact ⟨h.1, h.2.1 (by decide)⟩

/-- A capture step on anything but a successful read leaves both halves
of the shared latest-frame cell untouched. -/
theorem capture_step_keeps_cell {F : Type} (enc : F → String)
    (s : CaptureState F) (r : ReadResult F) (h : ∀ f, r ≠ .success f) :
    (capture_step enc s r).latest_frame = s.latest_frame
    ∧ (capture_step enc s r).latest_frame_b64 = s.latest_frame_b64 := by
  by_cases hst : s.stopped
  · simp [capture_step, hst]
  · cases r with
    | success f => exact absurd rfl (h f)
    | failure =>
      by_cases hn : 30 < s.consecutive_failures + 1 <;>
        simp [capture_step, hst, hn]
    | error => simp [capture_step, hst]

/-- A run of the capture loop that sees no successful read leaves both
halves of the shared cell untouched, whether or not the loop stops along
the way. -/
theorem capture_run_keeps_cell {F : Type} (enc : F → String) :
    ∀ (reads : List (ReadResult F)) (s : CaptureState F),
      (∀ r ∈ reads, ∀ f, r ≠ .success f) →
      (capture_run enc s reads).latest_frame = s.latest_frame
      ∧ (capture_run enc s reads).latest_frame_b64 = s.latest_frame_b64 := by
  intro reads
  induction reads with
  | nil => intro s _; exact ⟨rfl, rfl⟩
  | cons r rs ih =>
    intro s hr
    have hstep := capture_step_keeps_cell enc s r (hr r (by simp))
    have htail := ih (capture_step enc s r)
      (fun r2 hr2 => hr (r2) (by simp [hr2]))
    simp only [capture_run, List.foldl_cons] at *
    exact ⟨htail.1.trans hstep.1, htail.2.trans hstep.2⟩

/-- C7: in a running capture loop, a successful read resets the
consecutive-failure counter to zero and publishes the frame and its
encoding; a failed read increments the counter, leaves both halves of the
shared cell unchanged, and stops the loop exactly when the counter
exceeds 30; and any run without a successful read, including one that
stops, retains the last published cell value. -/
theorem claim_C7 {F : Type} (enc : F → String) (s : CaptureState F) (f : F)
    (reads : List (ReadResult F)) (hrun : s.stopped = false)
    (hfail : ∀ r ∈ reads, ∀ g, r ≠ ReadResult.success g) :
    capture_step enc s (.success f)
      = { consecutive_failures := 0, latest_frame := some f,
          latest_frame_b64 := some (enc f), stopped := false }
    ∧ (capture_step enc s .failure).consecutive_failures
        = s.consecutive_failures + 1
    ∧ (capture_step enc s .failure).latest_frame = s.latest_frame
    ∧ (capture_step enc s .failure).latest_frame_b64 = s.latest_frame_b64
    ∧ ((capture_step enc s .failure).stopped = true ↔
        30 < s.consecutive_failures + 1)
    ∧ (capture_run enc s reads).latest_frame = s.latest_frame
    ∧ (capture_run enc s reads).latest_frame_b64 = s.latest_frame_b64 := by
  have hcell := capture_run_keeps_cell enc reads s hfail
  by_cases hn : 30 < s.consecutive_failures + 1 <;>
    exact ⟨by simp [capture_step, hrun], by simp [capture_step, hrun, hn],
      by simp [capture_step, hrun, hn], by simp [capture_step, hrun, hn],
      by simp [capture_step, hrun, hn], hcell.1, hcell.2⟩

/-- Witness for C7: a concrete running state with 30 failures already
seen, one more failed read, and a run of two failures and an exception. -/
theorem claim_C7_witness :
    capture_step (fun _ : Nat => "b")
      { consecutive_failures := 30, latest_frame := some 5,
        latest_frame_b64 := some "old", stopped := false } (.success 7)
      = { consecutive_failures := 0, latest_frame := some 7,
          latest_frame_b64 := some "b", stopped := false }
    ∧ (capture_step (fun _ : Nat => "b")
        { consecutive_failures := 30, latest_frame := some 5,
          latest_frame_b64 := some "old", stopped := false }
        .failure).stopped = true
    ∧ (capture_run (fun _ : Nat => "b")
        { consecutive_failures := 30, latest_frame := some 5,
          latest_frame_b64 := some "old", stopped := false }
        [.failure, .error, .failure]).latest_frame = some 5 := by
  have h := claim_C7 (fun _ : Nat => "b")
    { consecutive_failures := 30, latest_frame := some 5,
      latest_frame_b64 := some "old", stopped := false } 7
    [.failure, .error, .failure] rfl (by
      intro r hr g
      simp only [List.mem_cons, List.not_mem_nil, or_false] at hr
      rcases hr with rfl | rfl | rfl <;> simp)
  exact ⟨h.1, (h.2.2.2.2.1).mpr (by decide), h.2.2.2.2.2.1⟩

/-- Helper: a matching step on a student with a falsy stored encoding
changes nothing. -/
theorem matchStep_falsy {D : Type} (cO : D → D → ℚ) (pE : String → D)
    (feat : D) (acc : Option Student × ℚ) (st : Student)
    (h : st.face_encoding = none ∨ st.face_encoding = some "") :
    matchStep cO pE feat acc st = acc := by
  rcases h with h | h
  · simp [matchStep, h]
  · have hE : ("" : String).isEmpty = true := rfl
    simp [matchStep, h, hE]

/-- Helper: the matching fold yields a match exactly when some compared
similarity strictly exceeds 0.75, provided the running score is 0
whenever there is no running match. -/
theorem foldl_matchStep_isSome {D : Type} (cO : D → D → ℚ) (pE : String → D)
    (feat : D) :
    ∀ (l : List Student) (acc : Option Student × ℚ),
      (acc.1 = none → acc.2 = 0) →
      ((l.foldl (matchStep cO pE feat) acc).1.isSome = true ↔
        (acc.1.isSome = true ∨
          ∃ s ∈ l.filterMap (simOf cO pE feat), (3 : ℚ)/4 < s)) := by
  intro l
  induction l with
  | nil => intro acc hinv; simp
  | cons st rest ih =>
    intro acc hinv
    rw [List.foldl_cons, List.filterMap_cons]
    cases henc : st.face_encoding with
    | none =>
      have hstep : matchStep cO pE feat acc st = acc := by
        simp [matchStep, henc]
      have hso : simOf cO pE feat st = none := by simp [simOf, henc]
      rw [hstep, hso]
      exact ih acc hinv
    | some enc =>
      by_cases hemp : enc.isEmpty
      · have hstep : matchStep cO pE feat acc st = acc := by
          simp [matchStep, henc, hemp]
        have hso : simOf cO pE feat st = none := by simp [simOf, henc, hemp]
        rw [hstep, hso]
        exact ih acc hinv
      · have hso : simOf cO pE feat st = some (cO feat (pE enc)) := by
          simp [simOf, henc, hemp]
        rw [hso]
        by_cases hcond : acc.2 < cO feat (pE enc) ∧ (3 : ℚ)/4 < cO feat (pE enc)
        · have hstep : matchStep cO pE feat acc st
              = (some st, cO feat (pE enc)) := by
            simp [matchStep, henc, hemp, hcond]
          rw [hstep, ih (some st, cO feat (pE enc)) (fun hn => by cases hn)]
          constructor
          · intro _
            exact Or.inr ⟨cO feat (pE enc), List.mem_cons_self _ _, hcond.2⟩
          · intro _
            exact Or.inl rfl
        · have hstep : matchStep cO pE feat acc st = acc := by
            simp [matchStep, henc, hemp, hcond]
          rw [hstep, ih acc hinv]
          constructor
          · rintro (h | h)
            · exact Or.inl h
            · obtain ⟨s, hs, hlt⟩ := h
              exact Or.inr ⟨s, List.mem_cons_of_mem _ hs, hlt⟩
          · rintro (h | h)
            · exact Or.inl h
            · obtain ⟨s, hs, hlt⟩ := h
              rcases List.mem_cons.mp hs with rfl | hs2
              · left
                have hle : ¬ acc.2 < cO feat (pE enc) :=
                  fun hh => hcond ⟨hh, hlt⟩
                have h34 : (3 : ℚ)/4 < acc.2 :=
                  lt_of_lt_of_le hlt (not_lt.mp hle)
                rcases hacc : acc.1 with _ | st2
                · exfalso
                  rw [hinv hacc] at h34
                  norm_num at h34
                · simp [hacc]
              · exact Or.inr ⟨s, hs2, hlt⟩

/-- Helper: a fold of max over a list exceeds a bound exactly when the
seed or some element does. -/
theorem lt_foldl_max (t : ℚ) :
    ∀ (l : List ℚ) (a : ℚ),
      (t < l.foldl max a ↔ t < a ∨ ∃ s ∈ l, t < s) := by
  intro l
  induction l with
  | nil => intro a; simp
  | cons x xs ih =>
    intro a
    rw [List.foldl_cons, ih (max a x)]
    constructor
    · rintro (h | h)
      · rcases lt_max_iff.mp h with h2 | h2
        · exact Or.inl h2
        · exact Or.inr ⟨x, List.mem_cons_self _ _, h2⟩
      · obtain ⟨s, hs, hlt⟩ := h
        exact Or.inr ⟨s, List.mem_cons_of_mem _ hs, hlt⟩
    · rintro (h | h)
      · exact Or.inl (lt_max_iff.mpr (Or.inl h))
      · obtain ⟨s, hs, hlt⟩ := h
        rcases List.mem_cons.mp hs with rfl | hs2
        · exact Or.inl (lt_max_iff.mpr (Or.inr hlt))
        · exact Or.inr ⟨s, hs2, hlt⟩

/-- C1: for any processed face carrying extracted features, the per-face
outcome of analyze_frame is recognized exactly when the maximum
similarity returned by the comparison capability across the active
students strictly exceeds 0.75 (so a maximum of exactly 0.75 is not a
match); and a later similarity equal to the running best score never
replaces the running best (first seen wins on ties). -/
theorem claim_C1 {D : Type} (cO : D → D → ℚ) (pE : String → D)
    (students : List Student) (now : Nat) :
    (∀ (fd : ProcessedFace D) (feat : D), fd.features = some feat →
      ((processFace cO pE students now fd).result.recognized = true ↔
        (3 : ℚ)/4 < maxSimilarity cO pE feat students))
    ∧ (∀ (feat : D) (acc : Option Student × ℚ) (st : Student) (enc : String),
        st.face_encoding = some enc → enc.isEmpty = false →
        cO feat (pE enc) = acc.2 →
        matchStep cO pE feat acc st = acc) := by
  constructor
  · intro fd feat hf
    have hout : ∀ mb : Option Student × ℚ,
        (faceOutcome now mb).result.recognized = mb.1.isSome := by
      intro mb
      rcases mb with ⟨mo, mq⟩
      cases mo <;> rfl
    have hpf : processFace cO pE students now fd
        = faceOutcome now (bestMatch cO pE feat students) := by
      unfold processFace
      rw [hf]
    rw [hpf, hout]
    have hfold := foldl_matchStep_isSome cO pE feat
      (students.filter (fun st => st.is_active)) (none, 0) (fun _ => rfl)
    unfold bestMatch
    rw [hfold]
    unfold maxSimilarity comparedSims
    rw [lt_foldl_max]
    norm_num
  · intro feat acc st enc h1 h2 h3
    simp [matchStep, h1, h2, h3]

/-- Witness for C1: one active student whose comparison scores 0.8 yields
a match, and a tie at the running best leaves the running best in
place. -/
theorem claim_C1_witness :
    ((processFace (fun _ _ : Nat => (4 : ℚ)/5) (fun _ => 0)
        [{ id := 1, name := "Alice", is_active := true,
           face_encoding := some "E" }] 3
        { bbox := { x := 0, y := 0, width := 1, height := 1 },
          confidence := 1, features := some 0, regionRows := 5,
          regionCols := 5 }).result.recognized = true ↔
      (3 : ℚ)/4 < maxSimilarity (fun _ _ : Nat => (4 : ℚ)/5) (fun _ => 0) 0
        [{ id := 1, name := "Alice", is_active := true,
           face_encoding := some "E" }])
    ∧ matchStep (fun _ _ : Nat => (4 : ℚ)/5) (fun _ => 0) 0
        (some { id := 1, name := "Alice", is_active := true,
                face_encoding := some "E" }, (4 : ℚ)/5)
        { id := 2, name := "Bob", is_active := true,
          face_encoding := some "F" }
      = (some { id := 1, name := "Alice", is_active := true,
                face_encoding := some "E" }, (4 : ℚ)/5) := by
  have h := claim_C1 (fun _ _ : Nat => (4 : ℚ)/5) (fun _ => 0)
    [{ id := 1, name := "Alice", is_active := true,
       face_encoding := some "E" }] 3
  exact ⟨h.1 _ 0 rfl, h.2 0 _ _ "F" rfl rfl rfl⟩

/-- Helper: a fold over students that all have falsy encodings changes
nothing. -/
theorem foldl_matchStep_falsy {D : Type} (cO : D → D → ℚ) (pE : String → D)
    (feat : D) :
    ∀ (l : List Student) (acc : Option Student × ℚ),
      (∀ st ∈ l, st.face_encoding = none ∨ st.face_encoding = some "") →
      l.foldl (matchStep cO pE feat) acc = acc := by
  intro l
  induction l with
  | nil => intro acc _; rfl
  | cons st rest ih =>
    intro acc h
    rw [List.foldl_cons,
      matchStep_falsy cO pE feat acc st (h st (List.mem_cons_self _ _))]
    exact ih acc (fun s hs => h s (List.mem_cons_of_mem _ hs))

/-- Helper: the matching fold only ever selects a student whose stored
encoding is present and nonempty. -/
theorem foldl_matchStep_truthy {D : Type} (cO : D → D → ℚ) (pE : String → D)
    (feat : D) :
    ∀ (l : List Student) (acc : Option Student × ℚ) (st : Student),
      (∀ st2, acc.1 = some st2 →
        ∃ enc, st2.face_encoding = some enc ∧ enc.isEmpty = false) →
      (l.foldl (matchStep cO pE feat) acc).1 = some st →
      ∃ enc, st.face_encoding = some enc ∧ enc.isEmpty = false := by
  intro l
  induction l with
  | nil => intro acc st hacc h; exact hacc st h
  | cons s0 rest ih =>
    intro acc st hacc h
    rw [List.foldl_cons] at h
    refine ih (matchStep cO pE feat acc s0) st ?_ h
    intro st2 hst2
    cases henc : s0.face_encoding with
    | none =>
      simp only [matchStep, henc] at hst2
      exact hacc st2 hst2
    | some enc =>
      by_cases hemp : enc.isEmpty
      · simp only [matchStep, henc, hemp, if_true] at hst2
        exact hacc st2 hst2
      · by_cases hcond : acc.2 < cO feat (pE enc) ∧ (3 : ℚ)/4 < cO feat (pE enc)
        · simp only [matchStep, henc] at hst2
          rw [if_neg hemp, if_pos hcond] at hst2
          injection hst2 with h2
          subst h2
          exact ⟨enc, henc, by simpa using hemp⟩
        · simp only [matchStep, henc] at hst2
          rw [if_neg hemp, if_neg hcond] at hst2
          exact hacc st2 hst2

/-- C10: a matching step on an active student whose stored encoding is
NULL or empty changes nothing (so such a student is never passed to the
comparison capability); the matched student of any outcome always has a
present, nonempty stored encoding; and when every active student lacks a
stored encoding the matching loop ends with no match and best score 0, so
the face is unmatched. -/
theorem claim_C10 {D : Type} (cO : D → D → ℚ) (pE : String → D) (feat : D)
    (students : List Student) :
    (∀ (acc : Option Student × ℚ) (st : Student),
        st.face_encoding = none ∨ st.face_encoding = some "" →
        matchStep cO pE feat acc st = acc)
    ∧ (∀ st : Student, (bestMatch cO pE feat students).1 = some st →
        ∃ enc, st.face_encoding = some enc ∧ enc.isEmpty = false)
    ∧ ((∀ st ∈ students, st.is_active = true →
          st.face_encoding = none ∨ st.face_encoding = some "") →
        bestMatch cO pE feat students = (none, 0)) := by
  refine ⟨fun acc st h => matchStep_falsy cO pE feat acc st h, ?_, ?_⟩
  · intro st h
    exact foldl_matchStep_truthy cO pE feat
      (students.filter (fun st => st.is_active)) (none, 0) st
      (fun st2 h2 => by cases h2) h
  · intro h
    unfold bestMatch
    apply foldl_matchStep_falsy
    intro st hst
    have hmem := List.mem_filter.mp hst
    exact h st hmem.1 hmem.2

/-- Witness for C10: students with a NULL and with an empty encoding are
passed over and produce no match. -/
theorem claim_C10_witness :
    matchStep (fun _ _ : Nat => (9 : ℚ)/10) (fun _ => 0) 0
      ((none : Option Student), (0 : ℚ))
      { id := 1, name := "A", is_active := true, face_encoding := none }
      = ((none : Option Student), (0 : ℚ))
    ∧ bestMatch (fun _ _ : Nat => (9 : ℚ)/10) (fun _ => 0) 0
        [{ id := 1, name := "A", is_active := true, face_encoding := none },
         { id := 2, name := "B", is_active := true,
           face_encoding := some "" }]
      = ((none : Option Student), (0 : ℚ)) := by
  have h := claim_C10 (fun _ _ : Nat => (9 : ℚ)/10) (fun _ => 0) 0
    [{ id := 1, name := "A", is_active := true, face_encoding := none },
     { id := 2, name := "B", is_active := true, face_encoding := some "" }]
  refine ⟨h.1 _ _ (Or.inl rfl), h.2.2 ?_⟩
  intro st hst hact
  simp only [List.mem_cons, List.not_mem_nil, or_false] at hst
  rcases hst with rfl | rfl
  · exact Or.inl rfl
  · exact Or.inr rfl

/-- Helper: the full-frame bounding box denormalizes to the whole square
frame. -/
theorem cropDims_unit (n : Nat) :
    cropDims n n { x := 0, y := 0, width := 1, height := 1 } = (n, n) := by
  have h0 : pyInt 0 = 0 := by simp [pyInt]
  have h1 : pyInt ((n : Nat) : ℚ) = (n : Int) := by simp [pyInt, Int.tdiv]
  have h2 : npIdx 0 n = 0 := by simp [npIdx]
  have h3 : npIdx (n : Int) n = n := by simp [npIdx]; omega
  simp [cropDims, sliceLen, h0, h1, h2, h3]

/-- Counterexample to C2: with one detected face whose feature extraction
returns no descriptor and one active enrolled student, analyze_frame
still records an unmatched outcome for the candidate, appends an
entry-log row for it, creates an alert, and triggers the alarm — the
candidate is not skipped. -/
theorem claim_C2_counterexample :
    @analyze_frame Nat true (some "frame") (some (100, 100))
      [{ bbox := { x := 0, y := 0, width := 1, height := 1 },
         confidence := 9/10 }]
      (fun _ => none)
      [{ id := 1, name := "Alice", is_active := true,
         face_encoding := some "ENC" }]
      (fun _ => 0) (fun _ _ => 1) 7
      = (.success 1 [{ recognized := false, name := "Unknown",
                       confidence := none }],
         { entry_logs := [{ student_id := none, is_recognized := false,
                            confidence_score := none, entry_time := 7 }],
           alerts := [{ alert_type := "unknown_person",
                        message := unknownMsg 7, severity := "high" }],
           alarm_trigs := [{ alert_type := "unknown_person",
                             message := unknownMsg 7,
                             severity := "high" }] }) := by
  have hc := cropDims_unit 100
  norm_num [analyze_frame, process_frame_for_faces, List.filterMap_cons, hc,
    processFace, faceOutcome, bestMatch, matchStep]

/-- C2 amended: a detected face candidate whose crop has nonzero area is
kept by process_frame_for_faces even when feature extraction fails (only
a zero-area crop is dropped), and a kept candidate without features
bypasses comparison and is processed as an unmatched face: analyze_frame
records an unrecognized outcome for it, appends an entry-log row, creates
an unknown-person alert, and triggers the alarm. -/
theorem claim_C2_amended {D : Type} (cO : D → D → ℚ) (pE : String → D)
    (students : List Student) (now : Nat) (h w : Nat)
    (extractOracle : FaceCand → Option D) (faces : List FaceCand)
    (face : FaceCand) (fd : ProcessedFace D) (hmem : face ∈ faces)
    (harea : 0 < (cropDims h w face.bbox).1 * (cropDims h w face.bbox).2)
    (hfeat : fd.features = none) :
    ({ bbox := face.bbox, confidence := face.confidence,
       features := extractOracle face,
       regionRows := (cropDims h w face.bbox).1,
       regionCols := (cropDims h w face.bbox).2 } : ProcessedFace D)
      ∈ process_frame_for_faces h w extractOracle faces
    ∧ processFace cO pE students now fd
      = { result := { recognized := false, name := "Unknown",
                      confidence := none },
          log := { student_id := none, is_recognized := false,
                   confidence_score := none, entry_time := now },
          alert := some { alert_type := "unknown_person",
                          message := unknownMsg now, severity := "high" },
          alarm := some { alert_type := "unknown_person",
                          message := unknownMsg now,
                          severity := "high" } } := by
  constructor
  · apply List.mem_filterMap.mpr
    refine ⟨face, hmem, ?_⟩
    simp [harea]
  · have hpf : processFace cO pE students now fd = faceOutcome now (none, 0) := by
      unfold processFace
      rw [hfeat]
    rw [hpf]
    simp [faceOutcome]

/-- Witness for C2 amended at a concrete face and student roster. -/
theorem claim_C2_witness :
    ({ bbox := { x := 0, y := 0, width := 1, height := 1 },
       confidence := 9/10, features := (none : Option Nat),
       regionRows := 50, regionCols := 50 } : ProcessedFace Nat)
      ∈ process_frame_for_faces 50 50 (fun _ => (none : Option Nat))
          [{ bbox := { x := 0, y := 0, width := 1, height := 1 },
             confidence := 9/10 }]
    ∧ processFace (fun _ _ : Nat => (1 : ℚ)) (fun _ => 0)
        [{ id := 1, name := "Alice", is_active := true,
           face_encoding := some "ENC" }] 7
        { bbox := { x := 0, y := 0, width := 1, height := 1 },
          confidence := 9/10, features := none, regionRows := 50,
          regionCols := 50 }
      = { result := { recognized := false, name := "Unknown",
                      confidence := none },
          log := { student_id := none, is_recognized := false,
                   confidence_score := none, entry_time := 7 },
          alert := some { alert_type := "unknown_person",
                          message := unknownMsg 7, severity := "high" },
          alarm := some { alert_type := "unknown_person",
                          message := unknownMsg 7,
                          severity := "high" } } := by
  have h := claim_C2_amended (fun _ _ : Nat => (1 : ℚ)) (fun _ => 0)
    [{ id := 1, name := "Alice", is_active := true,
       face_encoding := some "ENC" }] 7 50 50 (fun _ => none)
    [{ bbox := { x := 0, y := 0, width := 1, height := 1 },
       confidence := 9/10 }]
    { bbox := { x := 0, y := 0, width := 1, height := 1 },
      confidence := 9/10 }
    { bbox := { x := 0, y := 0, width := 1, height := 1 },
      confidence := 9/10, features := none, regionRows := 50,
      regionCols := 50 }
    (List.mem_singleton.mpr rfl) (by simp [cropDims_unit 50]) rfl
  exact ⟨by simpa [cropDims_unit 50] using h.1, h.2⟩

/-- A capability message whose braced substring is not valid JSON. -/
def badContent : List Char := "\x7bnot json\x7d".toList

/-- A capability message with no braced substring at all. -/
def noJsonContent : List Char := "no braces here".toList

/-- Counterexample to C3: on a success response whose text has a braced
substring that does not parse, extract_face_features returns a fallback
descriptor, not the no-descriptor result of a timeout; and on a success
response with no braced substring, detect_faces_in_image falls off the
function (Python None) instead of returning the empty list of a
timeout. -/
theorem claim_C3_counterexample :
    extract_face_features (fun _ => none) (.resp 200 badContent)
      ≠ extract_face_features (fun _ => none) .netFail
    ∧ detect_faces_in_image (fun _ => none) (.resp 200 noJsonContent)
      ≠ detect_faces_in_image (fun _ => none) .netFail := by
  constructor <;> decide

/-- C3 amended: on a success response whose braced substring fails to
parse, detection and comparison do return the timeout results (empty list
and similarity 0.0), but feature extraction returns a fallback descriptor
wrapping the raw content rather than no descriptor; and on a success
response with no braced substring at all, all three calls fall off the
function and return Python None — which matches the timeout outcome for
extraction only, detection returning None instead of the empty list and
comparison None instead of 0.0. -/
theorem claim_C3_amended (loads : List Char → Option JVal)
    (content js : List Char) :
    (extractBraced content = some js → loads js = none →
      (detect_faces_in_image loads (.resp 200 content) = some []
        ∧ detect_faces_in_image loads .netFail = some []
        ∧ compare_faces loads true true (.resp 200 content) = some 0
        ∧ compare_faces loads true true .netFail = some 0
        ∧ extract_face_features loads (.resp 200 content)
            = some (.fallback content)
        ∧ extract_face_features loads .netFail = none))
    ∧ (extractBraced content = none →
      (detect_faces_in_image loads (.resp 200 content) = none
        ∧ extract_face_features loads (.resp 200 content) = none
        ∧ compare_faces loads true true (.resp 200 content) = none)) := by
  constructor
  · intro h1 h2
    refine ⟨?_, rfl, ?_, ?_, ?_, rfl⟩ <;>
      simp [detect_faces_in_image, compare_faces, extract_face_features,
        h1, h2]
  · intro h1
    refine ⟨?_, ?_, ?_⟩ <;>
      simp [detect_faces_in_image, compare_faces, extract_face_features, h1]

/-- Witness for C3 amended on the two concrete malformed messages. -/
theorem claim_C3_witness :
    detect_faces_in_image (fun _ => none) (.resp 200 badContent) = some []
    ∧ extract_face_features (fun _ => none) (.resp 200 badContent)
        = some (.fallback badContent)
    ∧ detect_faces_in_image (fun _ => none) (.resp 200 noJsonContent) = none
    ∧ compare_faces (fun _ => none) true true (.resp 200 noJsonContent)
        = none := by
  have h1 := (claim_C3_amended (fun _ => none) badContent badContent).1
    (by decide) rfl
  have h2 := (claim_C3_amended (fun _ => none) noJsonContent []).2 (by decide)
  exact ⟨h1.1, h1.2.2.2.2.1, h2.1, h2.2.2⟩

/-- Counterexample to C8: a frame analysis that completes successfully
with one detected, unrecognized face returns a per-face record that has
no confidence field at all. -/
theorem claim_C8_counterexample :
    (@analyze_frame Nat true (some "g") (some (10, 10))
       [{ bbox := { x := 0, y := 0, width := 1, height := 1 },
          confidence := 1 }]
       (fun _ => some 1) [] (fun _ => 1) (fun _ _ => 0) 4).1
      = .success 1 [{ recognized := false, name := "Unknown",
                      confidence := none }] := by
  have hc := cropDims_unit 10
  norm_num [analyze_frame, process_frame_for_faces, List.filterMap_cons, hc,
    processFace, faceOutcome, bestMatch, matchStep]

/-- C8 amended: a successfully completed analysis reports the success
status, the count of processed faces, and one record per processed face;
a recognized record carries a confidence value, while an unrecognized
record carries the name Unknown and no confidence field. -/
theorem claim_C8_amended {D : Type} (frameStr : String) (hw : Nat × Nat)
    (faces : List FaceCand) (extractOracle : FaceCand → Option D)
    (students : List Student) (pE : String → D) (cO : D → D → ℚ)
    (now : Nat) (n : Nat) (results : List FaceResult)
    (h : (analyze_frame true (some frameStr) (some hw) faces extractOracle
            students pE cO now).1 = .success n results) :
    n = results.length
    ∧ n = (process_frame_for_faces hw.1 hw.2 extractOracle faces).length
    ∧ ∀ r ∈ results,
        (r.recognized = true → r.confidence.isSome = true)
        ∧ (r.recognized = false →
            r.name = "Unknown" ∧ r.confidence = none) := by
  have hfields : ∀ fd : ProcessedFace D,
      ((processFace cO pE students now fd).result.recognized = true →
        (processFace cO pE students now fd).result.confidence.isSome = true)
      ∧ ((processFace cO pE students now fd).result.recognized = false →
        (processFace cO pE students now fd).result.name = "Unknown"
        ∧ (processFace cO pE students now fd).result.confidence = none) := by
    intro fd
    cases hf : fd.features with
    | none =>
      have hpf : processFace cO pE students now fd
          = faceOutcome now (none, 0) := by
        unfold processFace
        rw [hf]
      rw [hpf]
      simp [faceOutcome]
    | some feat =>
      have hpf : processFace cO pE students now fd
          = faceOutcome now (bestMatch cO pE feat students) := by
        unfold processFace
        rw [hf]
      rw [hpf]
      rcases hb : bestMatch cO pE feat students with ⟨mo, mq⟩
      cases mo <;> simp [faceOutcome]
  simp only [analyze_frame] at h
  rw [if_neg (by simp)] at h
  simp only [AnalyzeResp.success.injEq] at h
  obtain ⟨hn, hr⟩ := h
  refine ⟨?_, ?_, ?_⟩
  · rw [← hn, ← hr]
    simp
  · rw [← hn]
  · intro r hr2
    rw [← hr] at hr2
    simp only [List.mem_map] at hr2
    obtain ⟨o, ho, hoe⟩ := hr2
    obtain ⟨fd, hfd, hfo⟩ := ho
    rw [← hoe, ← hfo]
    exact hfields fd

/-- Witness for C8 amended on a concrete successful analysis with one
unrecognized face. -/
theorem claim_C8_witness :
    1 = [({ recognized := false, name := "Unknown", confidence := none }
          : FaceResult)].length
    ∧ ({ recognized := false, name := "Unknown", confidence := none }
        : FaceResult).name = "Unknown"
    ∧ ({ recognized := false, name := "Unknown", confidence := none }
        : FaceResult).confidence = none := by
  have h := @claim_C8_amended Nat "f" (10, 10)
    [{ bbox := { x := 0, y := 0, width := 1, height := 1 },
       confidence := 1 }]
    (fun _ => some 0) [] (fun _ => 0) (fun _ _ => 0) 3 1
    [{ recognized := false, name := "Unknown", confidence := none }]
    (by norm_num [analyze_frame, process_frame_for_faces, List.filterMap_cons,
      cropDims_unit 10, processFace, faceOutcome, bestMatch, matchStep])
  have h3 := h.2.2 _ (List.mem_singleton.mpr rfl)
  exact ⟨h.1, (h3.2 rfl).1, (h3.2 rfl).2⟩

end ClassroomMonitor
